import Mathlib

/-!
# Verification of `apps/ui/src/hooks/use-media-query.ts`

Shallow embedding of the React hooks `useMediaQuery`, `useIsMobile` and
`useIsTablet` from `apps/ui/src/hooks/use-media-query.ts`.

The platform (browser) is modelled as follows:
* the viewport context (`window`) is an `Option Nat`: `none` when
  `typeof window === 'undefined'`, `some w` when a window with current
  viewport width `w` exists;
* `window.matchMedia(query).matches` at viewport width `w` is an abstract
  match function `μ : String → Nat → Bool` (the platform query engine),
  instantiated with `evalMediaQuery` — the CSS semantics of
  `(max-width: Npx)` queries, the only queries the repository uses — when
  a concrete engine is needed;
* a `change` event on the `MediaQueryList` for query `q` fires exactly when
  the viewport width moves from `w₁` to `w₂` with `μ q w₁ ≠ μ q w₂`, and the
  delivered `MediaQueryListEvent` carries `matches = μ q w₂`.

The hook instance is an `Observer`: its published React state `value`, the
registry `subs` of change listeners currently registered with the platform
(identified by the query string they listen on), and the `pending` cleanup
returned by the last effect run (`none` when the effect returned early).
The React runtime protocol is: `initObserver` (the lazy `useState`
initializer, lines 9–12), `runEffect` (the effect body, lines 14–27),
`runCleanup` (the cleanup closure, lines 28–30); on a dependency change the
runtime runs the previous cleanup and then the effect again (`rerender`),
and on unmount it runs the cleanup (`unmount`).
-/

/-- Value of a decimal digit string (most significant digit first). -/
def digitsToNat (cs : List Char) : Nat :=
  cs.foldl (fun n c => 10 * n + (c.toNat - 48)) 0

/-- CSS parsing of a `(max-width: Npx)` media query string: extract `N`. -/
def parseMaxWidth (query : String) : Option Nat :=
  let cs := query.data
  if cs.take 12 = "(max-width: ".data ∧ cs.drop (cs.length - 3) = "px)".data then
    let digits := (cs.drop 12).take (cs.length - 15)
    if digits ≠ [] ∧ digits.all Char.isDigit then some (digitsToNat digits) else none
  else
    none

/-- The platform query engine on the query language the repository uses:
`(max-width: Npx)` matches at viewport width `w` iff `w ≤ N`; anything the
engine cannot parse matches nothing. -/
def evalMediaQuery (query : String) (width : Nat) : Bool :=
  match parseMaxWidth query with
  | some n => width ≤ n
  | none => false

/-- A delivered `change` event; `matches` is the field the handler reads. -/
structure MediaQueryListEvent where
  «matches» : Bool
deriving DecidableEq, Repr

/-- The event the platform delivers for query `q` when the viewport width
becomes `w`: it carries the match state of `q` at `w`. -/
def eventFor (μ : String → Nat → Bool) (q : String) (w : Nat) : MediaQueryListEvent :=
  ⟨μ q w⟩

/-- State of one `useMediaQuery` observer instance together with the
platform's listener registry. -/
structure Observer where
  /-- the React state `matches`, the hook's published reactive boolean -/
  value : Bool
  /-- queries with a registered `change` listener, in registration order -/
  subs : List String
  /-- the cleanup returned by the last effect run: `some q` removes the
  listener registered on `q`; `none` when the effect returned early -/
  pending : Option String
deriving DecidableEq, Repr

/-- The lazy `useState` initializer (lines 9–12): `false` without a window,
otherwise the synchronous `window.matchMedia(query).matches`. -/
def initialValue (μ : String → Nat → Bool) (win : Option Nat) (query : String) : Bool :=
  match win with
  | none => false
  | some w => μ query w

/-- Observer state right after `useState` runs, before any effect. -/
def initObserver (μ : String → Nat → Bool) (win : Option Nat) (query : String) : Observer :=
  ⟨initialValue μ win query, [], none⟩

/-- A primitive action the effect body or the cleanup performs on the
observer/platform state. -/
inductive HookAction where
  /-- `setMatches b` -/
  | setValue (b : Bool)
  /-- `mediaQuery.addEventListener('change', handleChange)` for query `q` -/
  | addL (q : String)
  /-- `mediaQuery.removeEventListener('change', handleChange)` for query `q` -/
  | removeL (q : String)
deriving DecidableEq, Repr

/-- Effect of one primitive action on the observer state. Removing a
listener removes the first registration on that query. -/
def applyAction (ob : Observer) : HookAction → Observer
  | .setValue b => { ob with value := b }
  | .addL q => { ob with subs := ob.subs ++ [q] }
  | .removeL q => { ob with subs := ob.subs.erase q }

/-- Run a sequence of primitive actions in order. -/
def applyTrace (ob : Observer) (tr : List HookAction) : Observer :=
  tr.foldl applyAction ob

/-- The sequence of actions the effect body performs (lines 14–27): with no
window it returns early doing nothing; otherwise it synchronously sets the
state to `mediaQuery.matches` (line 23) and then registers the change
listener (line 26). -/
def effectTrace (μ : String → Nat → Bool) (win : Option Nat) (query : String) :
    List HookAction :=
  match win with
  | none => []
  | some w => [HookAction.setValue (μ query w), HookAction.addL query]

/-- One run of the effect: perform its actions; the cleanup it returns
(lines 28–30) is recorded in `pending` — `none` on the early-return path. -/
def runEffect (μ : String → Nat → Bool) (win : Option Nat) (query : String)
    (ob : Observer) : Observer :=
  let ob1 := applyTrace ob (effectTrace μ win query)
  { ob1 with pending := match win with | none => none | some _ => some query }

/-- Run the pending cleanup (lines 28–30): remove the listener the last
effect run registered, if any. -/
def runCleanup (ob : Observer) : Observer :=
  match ob.pending with
  | none => ob
  | some q => { applyTrace ob [HookAction.removeL q] with pending := none }

/-- Mounting the hook: `useState` initialization followed by the first
effect run. -/
def mount (μ : String → Nat → Bool) (win : Option Nat) (query : String) : Observer :=
  runEffect μ win query (initObserver μ win query)

/-- Unmounting: the React runtime runs the pending cleanup. -/
def unmount (ob : Observer) : Observer :=
  runCleanup ob

/-- A render with a changed `query` dependency: the runtime runs the
previous cleanup, then the effect with the new query. -/
def rerender (μ : String → Nat → Bool) (win : Option Nat) (query : String)
    (ob : Observer) : Observer :=
  runEffect μ win query (runCleanup ob)

/-- The change handler from the source (lines 18–20):
`setMatches(e.matches)`. -/
def handleChange (e : MediaQueryListEvent) (ob : Observer) : Observer :=
  { ob with value := e.«matches» }

/-- Modelled from the spec: the algorithm in §4.1 says the listener, on
firing, re-reads the match state and republishes it — publishing a fresh
`mediaQuery.matches` read at delivery time instead of the event payload. -/
def handleChangeSpec (μ : String → Nat → Bool) (q : String) (w : Nat)
    (ob : Observer) : Observer :=
  { ob with value := μ q w }

/-- A viewport width transition `w₁ → w₂`: the platform fires the change
handler of every registered listener whose match state crosses, delivering
the event for the new width. -/
def fireChange (μ : String → Nat → Bool) (w₁ w₂ : Nat) (ob : Observer) : Observer :=
  ob.subs.foldl
    (fun o q => if μ q w₁ == μ q w₂ then o else handleChange (eventFor μ q w₂) o)
    ob

/-- Number of updates (handler-initiated `setMatches` calls) a width
transition `w₁ → w₂` produces on this observer. -/
def changeUpdates (μ : String → Nat → Bool) (w₁ w₂ : Nat) (ob : Observer) : Nat :=
  (ob.subs.filter (fun q => !(μ q w₁ == μ q w₂))).length

/-- Run a sequence of width transitions, accumulating the total number of
updates produced. -/
def runChanges (μ : String → Nat → Bool) (ws : List (Nat × Nat)) (ob : Observer) :
    Observer × Nat :=
  ws.foldl (fun acc p => (fireChange μ p.1 p.2 acc.1, acc.2 + changeUpdates μ p.1 p.2 acc.1))
    (ob, 0)

/-- Number of active listener registrations this observer holds. -/
def activeListeners (ob : Observer) : Nat :=
  ob.subs.length

/-- One mount/dispose cycle against a persistent platform registry. -/
def mountDisposeCycle (μ : String → Nat → Bool) (win : Option Nat) (query : String)
    (ob : Observer) : Observer :=
  runCleanup (runEffect μ win query ob)

/-- The hook's published value once mounted at a given viewport. -/
def useMediaQueryValue (win : Option Nat) (query : String) : Bool :=
  (mount evalMediaQuery win query).value

/-- `useIsMobile` (lines 40–42): `useMediaQuery('(max-width: 768px)')`. -/
def useIsMobileValue (win : Option Nat) : Bool :=
  useMediaQueryValue win "(max-width: 768px)"

/-- `useIsTablet` (lines 48–50): `useMediaQuery('(max-width: 1024px)')`. -/
def useIsTabletValue (win : Option Nat) : Bool :=
  useMediaQueryValue win "(max-width: 1024px)"

/-- Fallible platform: `matchMedia` may throw (e.g. on a malformed query);
the thrown value is a `String`. The engine, when it succeeds, yields the
match function of the query. -/
def MatchMediaE : Type :=
  String → Except String (Nat → Bool)

/-- The `useState` initializer (lines 9–12) against a fallible platform:
the source wraps `window.matchMedia(query).matches` in no try/catch, so an
engine error propagates unchanged. -/
def initialValueE (mm : MatchMediaE) (win : Option Nat) (query : String) :
    Except String Bool :=
  match win with
  | none => Except.ok false
  | some w =>
    match mm query with
    | Except.error err => Except.error err
    | Except.ok m => Except.ok (m w)

/-- The effect body (lines 14–27) against a fallible platform: line 17 calls
`window.matchMedia(query)` outside any try/catch, so an engine error
propagates unchanged; on success the effect proceeds as `runEffect`. -/
def runEffectE (mm : MatchMediaE) (win : Option Nat) (query : String)
    (ob : Observer) : Except String Observer :=
  match win with
  | none => Except.ok { ob with pending := none }
  | some w =>
    match mm query with
    | Except.error err => Except.error err
    | Except.ok m =>
      Except.ok { value := m w, subs := ob.subs ++ [query], pending := some query }

/-! ## Helper lemmas -/

/-- The shape of a mounted observer when a window is present. -/
theorem mount_some_eq (μ : String → Nat → Bool) (w : Nat) (q : String) :
    mount μ (some w) q = ⟨μ q w, [q], some q⟩ := rfl

/-- The shape of a mounted observer when no window is present. -/
theorem mount_none_eq (μ : String → Nat → Bool) (q : String) :
    mount μ none q = ⟨false, [], none⟩ := rfl

/-- A width transition does nothing to an observer with no listeners. -/
theorem fireChange_of_subs_nil (μ : String → Nat → Bool) (w₁ w₂ : Nat) (ob : Observer)
    (h : ob.subs = []) : fireChange μ w₁ w₂ ob = ob := by
  simp [fireChange, h]

/-- A width transition produces no updates on an observer with no listeners. -/
theorem changeUpdates_of_subs_nil (μ : String → Nat → Bool) (w₁ w₂ : Nat) (ob : Observer)
    (h : ob.subs = []) : changeUpdates μ w₁ w₂ ob = 0 := by
  simp [changeUpdates, h]

/-- A whole sequence of width transitions does nothing, and produces zero
updates, on an observer with no listeners. -/
theorem runChanges_of_subs_nil (μ : String → Nat → Bool) (ws : List (Nat × Nat))
    (ob : Observer) (h : ob.subs = []) : runChanges μ ws ob = (ob, 0) := by
  have aux : ∀ (l : List (Nat × Nat)) (n : Nat),
      l.foldl (fun acc p => (fireChange μ p.1 p.2 acc.1, acc.2 + changeUpdates μ p.1 p.2 acc.1))
        (ob, n) = (ob, n) := by
    intro l
    induction l with
    | nil => intro n; rfl
    | cons p t ih =>
      intro n
      simp only [List.foldl_cons, fireChange_of_subs_nil μ p.1 p.2 ob h,
        changeUpdates_of_subs_nil μ p.1 p.2 ob h, Nat.add_zero]
      exact ih n
  exact aux ws 0

/-- A mount/dispose cycle leaves an empty listener registry empty. -/
theorem mountDisposeCycle_subs_nil (μ : String → Nat → Bool) (w : Nat) (q : String)
    (ob : Observer) (h : ob.subs = []) :
    (mountDisposeCycle μ (some w) q ob).subs = [] := by
  simp [mountDisposeCycle, runEffect, runCleanup, applyTrace, applyAction, effectTrace, h]

/-- Iterated mount/dispose cycles leave an empty listener registry empty. -/
theorem iterate_mountDisposeCycle_subs_nil (μ : String → Nat → Bool) (w : Nat) (q : String)
    (n : Nat) (ob : Observer) (h : ob.subs = []) :
    (Nat.iterate (mountDisposeCycle μ (some w) q) n ob).subs = [] := by
  induction n with
  | zero => exact h
  | succ m ih =>
    rw [Function.iterate_succ_apply']
    exact mountDisposeCycle_subs_nil μ w q _ ih

/-! ## Claims -/

/-- Claim C1: for every query string `Q`, the initial value of
`useMediaQuery Q` — the lazy `useState` initializer — is `false` when no
window is available, and otherwise equals the platform's synchronous match
result for `Q` at call time. -/
theorem useMediaQuery_initial_value (μ : String → Nat → Bool) (q : String) (w : Nat) :
    initialValue μ none q = false ∧ initialValue μ (some w) q = μ q w :=
  ⟨rfl, rfl⟩

/-- Claim C2: with no window, `useMediaQuery Q` yields `false` and never
changes — no listener is registered, and no sequence of width transitions
produces any update or alters the value. -/
theorem useMediaQuery_no_window_constant_false (μ : String → Nat → Bool) (q : String)
    (ws : List (Nat × Nat)) :
    (mount μ none q).value = false ∧ (mount μ none q).subs = [] ∧
    (runChanges μ ws (mount μ none q)).1.value = false ∧
    (runChanges μ ws (mount μ none q)).2 = 0 := by
  have h := runChanges_of_subs_nil μ ws (mount μ none q) rfl
  refine ⟨rfl, rfl, ?_, ?_⟩
  · rw [h]
    rfl
  · rw [h]

/-- Claim C3: `useIsMobile` returns exactly `useMediaQuery` pre-bound to the
`(max-width: 768px)` descriptor, and over the simulated viewport widths
{320, 375, 428, 768, 769, 1024, 1200} it yields
{true, true, true, true, false, false, false}. -/
theorem useIsMobile_matches_prebound_query (win : Option Nat) :
    useIsMobileValue win = useMediaQueryValue win "(max-width: 768px)" ∧
    [320, 375, 428, 768, 769, 1024, 1200].map (fun w => useIsMobileValue (some w)) =
      [true, true, true, true, false, false, false] :=
  ⟨rfl, by decide⟩

/-- Claim C4: `useIsTablet` returns exactly `useMediaQuery` pre-bound to the
`(max-width: 1024px)` descriptor, and over the simulated viewport widths
{320, 375, 428, 768, 769, 1024, 1200} it yields
{true, true, true, true, true, true, false}. -/
theorem useIsTablet_matches_prebound_query (win : Option Nat) :
    useIsTabletValue win = useMediaQueryValue win "(max-width: 1024px)" ∧
    [320, 375, 428, 768, 769, 1024, 1200].map (fun w => useIsTabletValue (some w)) =
      [true, true, true, true, true, true, false] :=
  ⟨rfl, by decide⟩

/-- Claim C5: while the observer is live (mounted with a window), a single
viewport transition across the query's threshold produces exactly one
update, and the new published value equals the post-transition match state
of the query. -/
theorem useMediaQuery_single_update_on_crossing (μ : String → Nat → Bool)
    (w₀ w₁ w₂ : Nat) (q : String) (h : μ q w₁ ≠ μ q w₂) :
    changeUpdates μ w₁ w₂ (mount μ (some w₀) q) = 1 ∧
    (fireChange μ w₁ w₂ (mount μ (some w₀) q)).value = μ q w₂ := by
  rw [mount_some_eq]
  have hb : (μ q w₁ == μ q w₂) = false := by
    simp [h]
  constructor
  · simp [changeUpdates, hb]
  · simp [fireChange, hb, handleChange, eventFor, h]

/-- Witness for C5 at a concrete crossing: the mobile query, viewport moving
from 800 to 700. -/
theorem useMediaQuery_single_update_on_crossing_witness :
    changeUpdates evalMediaQuery 800 700 (mount evalMediaQuery (some 1000) "(max-width: 768px)") = 1 ∧
    (fireChange evalMediaQuery 800 700 (mount evalMediaQuery (some 1000) "(max-width: 768px)")).value =
      evalMediaQuery "(max-width: 768px)" 700 :=
  useMediaQuery_single_update_on_crossing evalMediaQuery 1000 800 700
    "(max-width: 768px)" (by decide)

/-- Claim C6: after disposal (effect cleanup) the listener registry is empty
on every exit path (window or not), and any further sequence of threshold
crossings produces zero updates and leaves the observer unchanged. -/
theorem useMediaQuery_no_updates_after_disposal (μ : String → Nat → Bool)
    (win : Option Nat) (q : String) (ws : List (Nat × Nat)) :
    (unmount (mount μ win q)).subs = [] ∧
    runChanges μ ws (unmount (mount μ win q)) = (unmount (mount μ win q), 0) := by
  have hs : (unmount (mount μ win q)).subs = [] := by
    cases win with
    | none => rfl
    | some w =>
      rw [mount_some_eq]
      simp [unmount, runCleanup, applyTrace, applyAction]
  exact ⟨hs, runChanges_of_subs_nil μ ws _ hs⟩

/-- Claim C7: each live observer holds exactly one active change-listener
subscription — also after a re-render that re-subscribes — and any number
of mount/dispose cycles (100 included) leaves zero residual listeners. -/
theorem useMediaQuery_listener_invariant (μ : String → Nat → Bool) (w : Nat)
    (q q2 : String) (n : Nat) :
    activeListeners (mount μ (some w) q) = 1 ∧
    activeListeners (rerender μ (some w) q2 (mount μ (some w) q)) = 1 ∧
    activeListeners
      (Nat.iterate (mountDisposeCycle μ (some w) q) n (initObserver μ (some w) q)) = 0 := by
  refine ⟨rfl, ?_, ?_⟩
  · rw [mount_some_eq]
    simp [rerender, runCleanup, runEffect, applyTrace, applyAction, effectTrace,
      activeListeners]
  · have hs := iterate_mountDisposeCycle_subs_nil μ w q n (initObserver μ (some w) q) rfl
    simp [activeListeners, hs]

/-- Claim C8: the value the handler publishes on a change event — the
event-carried `matches` payload — coincides with a fresh re-read of the
query's match state at delivery time, as the spec's algorithm describes. -/
theorem handleChange_publishes_fresh_match (μ : String → Nat → Bool) (q : String)
    (w : Nat) (ob : Observer) :
    handleChange (eventFor μ q w) ob = handleChangeSpec μ q w ob :=
  rfl

/-- Claim C9: against a fallible platform engine, the hook performs no
validation, catching, or recovery: with no window it yields `ok false`
without consulting the engine, and with a window both the initializer and
the effect body are exactly the engine's result mapped through the hook's
success path — an engine error propagates unchanged, and the hook errors
exactly when the engine does. -/
theorem useMediaQuery_propagates_platform_errors (mm : MatchMediaE) (w : Nat)
    (q : String) (ob : Observer) :
    initialValueE mm none q = Except.ok false ∧
    initialValueE mm (some w) q = Except.map (fun m => m w) (mm q) ∧
    runEffectE mm (some w) q ob =
      Except.map (fun m => Observer.mk (m w) (ob.subs ++ [q]) (some q)) (mm q) := by
  refine ⟨rfl, ?_, ?_⟩ <;>
    cases h : mm q <;> simp [initialValueE, runEffectE, h, Except.map]

/-- Claim C10: when the query dependency changes across renders, the cleanup
removes the old query's listener, the effect installs exactly one listener
on the new query, the value is synchronously re-read from the new query's
match state, and in the effect's action order that re-read precedes the
registration of the new listener. -/
theorem useMediaQuery_handles_query_change (μ : String → Nat → Bool) (w : Nat)
    (q q2 : String) :
    (runCleanup (mount μ (some w) q)).subs = [] ∧
    rerender μ (some w) q2 (mount μ (some w) q) = ⟨μ q2 w, [q2], some q2⟩ ∧
    effectTrace μ (some w) q2 = [HookAction.setValue (μ q2 w), HookAction.addL q2] := by
  refine ⟨?_, ?_, rfl⟩
  · rw [mount_some_eq]
    simp [runCleanup, applyTrace, applyAction]
  · rw [mount_some_eq]
    simp [rerender, runCleanup, runEffect, applyTrace, applyAction, effectTrace]
